import Mathlib

/-
Shallow embedding of the FutureBot Order Execution & Position Accounting
Engine (backend/app/services/paper_trading_engine.py and
backend/app/services/trading_service.py, with the enumerations of
backend/app/models/order.py and backend/app/models/position.py).

Python `Decimal` values are embedded as `ℚ` (the spec demands exact decimal
arithmetic; every operation used here is +, -, ×, ÷ on exact values).
Timestamps (`filled_at`, `closed_at`) are embedded as "is the field set"
booleans; the random `exchange_order_id` likewise. The market-data
collaborator's `get_ticker` is passed in as an `Option ℚ` (the last price,
`none` when the quote fetch raises). Dictionary state
(`self.positions : dict[str, Position]`) is an association list with at most
one entry per key.
-/

namespace FutureBot

/-- Order side enumeration, from app/models/order.py (OrderSide). -/
inductive OrderSide
  | buy
  | sell
deriving DecidableEq, Repr

/-- Order type enumeration, from app/models/order.py (OrderType). -/
inductive OrderType
  | market
  | limit
  | stop_market
  | stop_limit
deriving DecidableEq, Repr

/-- Order status enumeration, from app/models/order.py (OrderStatus). -/
inductive OrderStatus
  | pending
  | filled
  | partially_filled
  | cancelled
  | rejected
  | expired
deriving DecidableEq, Repr

/-- Position side enumeration, from app/models/position.py (PositionSide). -/
inductive PositionSide
  | long
  | short
deriving DecidableEq, Repr

/-- Order record, the fields of app/models/order.py used by the engine.
`filled_at` and `has_exchange_order_id` are presence flags for the timestamp
and the synthetic exchange id. -/
structure Order where
  symbol : String
  side : OrderSide
  order_type : OrderType
  quantity : ℚ
  price : Option ℚ := none
  status : OrderStatus := OrderStatus.pending
  filled_quantity : ℚ := 0
  average_fill_price : Option ℚ := none
  filled_at : Bool := false
  has_exchange_order_id : Bool := false
  strategy_name : Option String := none
  notes : Option String := none
deriving DecidableEq, Repr

/-- Position record, the fields of app/models/position.py used by the engine.
`closed_at` is a presence flag for the close timestamp. -/
structure Position where
  symbol : String
  side : PositionSide
  quantity : ℚ
  entry_price : ℚ
  current_price : ℚ
  leverage : ℕ := 1
  unrealized_pnl : ℚ := 0
  realized_pnl : ℚ := 0
  is_open : Bool := true
  is_paper_trading : Bool := true
  strategy_name : Option String := none
  closed_at : Bool := false
deriving DecidableEq, Repr

/-- The mutable state of PaperTradingEngine (paper_trading_engine.py,
`__init__`): balance, initial balance, and the symbol → open position map. -/
structure PaperTradingEngine where
  balance : ℚ
  initial_balance : ℚ
  positions : List (String × Position)
deriving DecidableEq, Repr

/-- `self.positions.get(symbol)`: first binding of the key in the
association list (a Python dict holds at most one binding per key). -/
def lookupPos : List (String × Position) → String → Option Position
  | [], _ => none
  | (k, v) :: rest, s => if k = s then some v else lookupPos rest s

/-- `self.positions[symbol] = p`: replace the key's binding or append it. -/
def setPos : List (String × Position) → String → Position → List (String × Position)
  | [], s, p => [(s, p)]
  | (k, v) :: rest, s, p =>
      if k = s then (s, p) :: rest else (k, v) :: setPos rest s p

/-- `del self.positions[symbol]`: drop the key's binding. -/
def delPos : List (String × Position) → String → List (String × Position)
  | [], _ => []
  | (k, v) :: rest, s => if k = s then rest else (k, v) :: delPos rest s

/-- PaperTradingEngine._calculate_execution_price. MARKET orders get a fixed
0.05% adverse slippage; LIMIT orders fill at the better of limit and market
(`none` embeds the `ValueError` raised when a limit order has no price);
other types fall through to the market price. -/
def calculate_execution_price (order_type : OrderType) (side : OrderSide)
    (market_price : ℚ) (limit_price : Option ℚ) : Option ℚ :=
  match order_type with
  | OrderType.market =>
      let slippage : ℚ := 5 / 10000
      match side with
      | OrderSide.buy => some (market_price * (1 + slippage))
      | OrderSide.sell => some (market_price * (1 - slippage))
  | OrderType.limit =>
      match limit_price with
      | none => none
      | some lp =>
          match side with
          | OrderSide.buy => some (min lp market_price)
          | OrderSide.sell => some (max lp market_price)
  | _ => some market_price

/-- PaperTradingEngine._update_positions, lines 153-229. Returns the new
engine state together with the Position object the call created or mutated
in place (for a full close, that object survives outside the map with
`is_open = false`). The BUY-merge branch is transcribed exactly as written:
`quantity` is incremented first, and the incremented quantity is then used
both in `total_value` and in the divisor. -/
def update_positions (e : PaperTradingEngine) (order : Order)
    (execution_price : ℚ) : PaperTradingEngine × Position :=
  let symbol := order.symbol
  match lookupPos e.positions symbol with
  | some existing =>
      match order.side with
      | OrderSide.buy =>
          let q1 := existing.quantity + order.quantity
          let total_value := existing.entry_price * q1
          let new_value := execution_price * order.quantity
          let p :=
            { existing with
              quantity := q1
              entry_price := (total_value + new_value) / (q1 + order.quantity) }
          ({ e with
              positions := setPos e.positions symbol p
              balance := e.balance - execution_price * order.quantity }, p)
      | OrderSide.sell =>
          if order.quantity ≥ existing.quantity then
            let pnl := (execution_price - existing.entry_price) * existing.quantity
            let p :=
              { existing with
                realized_pnl := existing.realized_pnl + pnl
                is_open := false
                closed_at := true }
            ({ e with
                balance := e.balance + execution_price * existing.quantity
                positions := delPos e.positions symbol }, p)
          else
            let pnl := (execution_price - existing.entry_price) * order.quantity
            let p :=
              { existing with
                quantity := existing.quantity - order.quantity
                realized_pnl := existing.realized_pnl + pnl }
            ({ e with
                balance := e.balance + execution_price * order.quantity
                positions := setPos e.positions symbol p }, p)
  | none =>
      match order.side with
      | OrderSide.buy =>
          let p : Position :=
            { symbol := symbol
              side := PositionSide.long
              quantity := order.quantity
              entry_price := execution_price
              current_price := execution_price
              leverage := 1
              is_paper_trading := true
              strategy_name := order.strategy_name }
          ({ e with
              positions := setPos e.positions symbol p
              balance := e.balance - execution_price * order.quantity }, p)
      | OrderSide.sell =>
          let p : Position :=
            { symbol := symbol
              side := PositionSide.short
              quantity := order.quantity
              entry_price := execution_price
              current_price := execution_price
              leverage := 1
              is_paper_trading := true
              strategy_name := order.strategy_name }
          ({ e with
              positions := setPos e.positions symbol p
              balance := e.balance + execution_price * order.quantity }, p)

/-- PaperTradingEngine.execute_order, lines 41-110. `quote` is the ticker's
last price (`none` when the fetch raises, landing in the `except` branch).
A limit order without a price raises ValueError, also landing in `except`.
The affordability check `position_value > self.balance` runs for every
order, whatever its side; only past it are the order marked FILLED and the
balance/positions mutated. -/
def execute_order (e : PaperTradingEngine) (order : Order) (quote : Option ℚ) :
    PaperTradingEngine × Order :=
  match quote with
  | none =>
      (e, { order with
              status := OrderStatus.rejected
              notes := some "Execution error: quote fetch failed" })
  | some current_price =>
      match calculate_execution_price order.order_type order.side current_price
          order.price with
      | none =>
          (e, { order with
                  status := OrderStatus.rejected
                  notes := some "Execution error: Limit orders require a price" })
      | some execution_price =>
          let position_value := execution_price * order.quantity
          if position_value > e.balance then
            (e, { order with
                    status := OrderStatus.rejected
                    notes := some "Insufficient balance" })
          else
            let filled :=
              { order with
                  status := OrderStatus.filled
                  filled_quantity := order.quantity
                  average_fill_price := some execution_price
                  filled_at := true
                  has_exchange_order_id := true }
            ((update_positions e filled execution_price).1, filled)

/-- `sum(pos.realized_pnl for pos in self.positions.values())`. -/
def sum_realized (ps : List (String × Position)) : ℚ :=
  (ps.map (fun kv => kv.2.realized_pnl)).sum

/-- `sum(pos.unrealized_pnl for pos in self.positions.values())`. -/
def sum_unrealized (ps : List (String × Position)) : ℚ :=
  (ps.map (fun kv => kv.2.unrealized_pnl)).sum

/-- PaperTradingEngine.get_total_pnl, lines 268-281: realized plus
unrealized P&L, each summed over the positions currently in the map. -/
def get_total_pnl (e : PaperTradingEngine) : ℚ :=
  sum_realized e.positions + sum_unrealized e.positions

/-- TradingService._validate_order, trading_service.py lines 170-203.
Returns the first failing rule's message, `none` when the order passes.
Python's `order.price or Decimal("0")` maps a missing (or zero) price
to zero, which is `Option.getD` up to the 0-is-falsy case that yields the
same value. -/
def validate_order (order : Order) (open_positions_count : ℕ)
    (max_position_size_usd : ℚ) (max_open_positions : ℕ) : Option String :=
  let position_value := order.quantity * order.price.getD 0
  if position_value > max_position_size_usd then
    some "Position size exceeds max"
  else if open_positions_count ≥ max_open_positions then
    match order.side with
    | OrderSide.sell => none
    | OrderSide.buy => some "Max open positions reached"
  else none

/-- Outcome of TradingService.cancel_order: the two distinct ValueError
exits (unknown id; non-pending status) and the success path. -/
inductive CancelResult
  | not_found
  | invalid_state (status : OrderStatus)
  | cancelled (order : Order)
deriving DecidableEq, Repr

/-- TradingService.cancel_order, trading_service.py lines 109-143, status
logic. `lookup` is the repository's `get_by_id` result. In paper mode a
pending order is marked CANCELLED directly; the live branch sets the same
status after a fire-and-forget exchange call (a collaborator side effect
outside this state). -/
def cancel_order (lookup : Option Order) : CancelResult :=
  match lookup with
  | none => CancelResult.not_found
  | some o =>
      if o.status ≠ OrderStatus.pending then
        CancelResult.invalid_state o.status
      else
        CancelResult.cancelled { o with status := OrderStatus.cancelled }

/-! ### Concrete sample data used by the closed theorems and witnesses -/

/-- Engine at its default start: balance 10000, no open positions. -/
def engC6 : PaperTradingEngine :=
  { balance := 10000, initial_balance := 10000, positions := [] }

/-- MARKET BUY of 0.1 BTCUSDT. -/
def ordC6buy : Order :=
  { symbol := "BTCUSDT", side := OrderSide.buy, order_type := OrderType.market,
    quantity := 1 / 10 }

/-- MARKET SELL of 0.1 BTCUSDT. -/
def ordC6sell : Order :=
  { symbol := "BTCUSDT", side := OrderSide.sell, order_type := OrderType.market,
    quantity := 1 / 10 }

/-- An open LONG position of quantity 1 at entry 100. -/
def posC1 : Position :=
  { symbol := "BTCUSDT", side := PositionSide.long, quantity := 1,
    entry_price := 100, current_price := 100 }

/-- Engine holding `posC1`. -/
def engC1 : PaperTradingEngine :=
  { balance := 1000, initial_balance := 1000, positions := [("BTCUSDT", posC1)] }

/-- A further BUY of quantity 1 on the same symbol. -/
def ordC1 : Order :=
  { symbol := "BTCUSDT", side := OrderSide.buy, order_type := OrderType.market,
    quantity := 1 }

/-- LONG position, quantity 1 at entry 100, on symbol L. -/
def posC2long : Position :=
  { symbol := "L", side := PositionSide.long, quantity := 1,
    entry_price := 100, current_price := 100 }

/-- SHORT position, quantity 1 at entry 100, on symbol S. -/
def posC2short : Position :=
  { symbol := "S", side := PositionSide.short, quantity := 1,
    entry_price := 100, current_price := 100 }

/-- Engine holding only the LONG position. -/
def engC2long : PaperTradingEngine :=
  { balance := 0, initial_balance := 0, positions := [("L", posC2long)] }

/-- Engine holding only the SHORT position. -/
def engC2short : PaperTradingEngine :=
  { balance := 0, initial_balance := 0, positions := [("S", posC2short)] }

/-- SELL of quantity 1 on symbol L (closes the LONG). -/
def ordC2long : Order :=
  { symbol := "L", side := OrderSide.sell, order_type := OrderType.market,
    quantity := 1 }

/-- SELL of quantity 1 on symbol S (closes the SHORT). -/
def ordC2short : Order :=
  { symbol := "S", side := OrderSide.sell, order_type := OrderType.market,
    quantity := 1 }

/-- Engine with balance 100 and no positions. -/
def engC3 : PaperTradingEngine :=
  { balance := 100, initial_balance := 100, positions := [] }

/-- MARKET SELL of quantity 1 with no position held. -/
def ordC3 : Order :=
  { symbol := "X", side := OrderSide.sell, order_type := OrderType.market,
    quantity := 1 }

/-- LONG position, quantity 1 at entry 100, on symbol A. -/
def posC7 : Position :=
  { symbol := "A", side := PositionSide.long, quantity := 1,
    entry_price := 100, current_price := 100 }

/-- Engine holding `posC7` only. -/
def engC7 : PaperTradingEngine :=
  { balance := 0, initial_balance := 0, positions := [("A", posC7)] }

/-- SELL of quantity 1 on symbol A (full close of `posC7`). -/
def ordC7 : Order :=
  { symbol := "A", side := OrderSide.sell, order_type := OrderType.market,
    quantity := 1 }

/-- Engine with balance 0 and no positions. -/
def engC4 : PaperTradingEngine :=
  { balance := 0, initial_balance := 0, positions := [] }

/-- MARKET BUY of quantity 1 (unaffordable at balance 0). -/
def ordC4 : Order :=
  { symbol := "X", side := OrderSide.buy, order_type := OrderType.market,
    quantity := 1 }

/-- LIMIT BUY of quantity 2 at price 1000 (notional 2000). -/
def ordC5 : Order :=
  { symbol := "X", side := OrderSide.buy, order_type := OrderType.limit,
    quantity := 2, price := some 1000 }

/-- LONG position, quantity 1 at entry 100, realized 3 and unrealized 7. -/
def posC8 : Position :=
  { symbol := "A", side := PositionSide.long, quantity := 1,
    entry_price := 100, current_price := 100,
    unrealized_pnl := 7, realized_pnl := 3 }

/-- Engine holding `posC8` only. -/
def engC8 : PaperTradingEngine :=
  { balance := 50, initial_balance := 50, positions := [("A", posC8)] }

/-- SELL of quantity 2 on symbol A: an oversell of `posC8`. -/
def ordC8 : Order :=
  { symbol := "A", side := OrderSide.sell, order_type := OrderType.market,
    quantity := 2 }

/-- A pending order, as built by create_order. -/
def ordC9 : Order :=
  { symbol := "X", side := OrderSide.buy, order_type := OrderType.market,
    quantity := 1 }

/-- Engine with balance 10 and no positions. -/
def engC10 : PaperTradingEngine :=
  { balance := 10, initial_balance := 10, positions := [] }

/-- MARKET SELL of quantity 1 with no position held. -/
def ordC10 : Order :=
  { symbol := "X", side := OrderSide.sell, order_type := OrderType.market,
    quantity := 1 }

/-! ### Claim theorems -/

/-- C1: the claim says a BUY into an existing position leaves the
volume-weighted average entry price. The code increments the position's
quantity before reusing it in both the value and the divisor, so on a
position of quantity 1 at entry 100 a BUY of 1 executed at 200 leaves
entry 400/3 instead of the volume-weighted average 150. -/
theorem C1_buy_merge_entry_not_vwap :
    (update_positions engC1 ordC1 200).2.quantity = 2 ∧
    (update_positions engC1 ordC1 200).2.entry_price = 400 / 3 ∧
    (update_positions engC1 ordC1 200).2.entry_price
      ≠ (100 * 1 + 200 * 1) / (1 + 1) := by
  norm_num [update_positions, engC1, posC1, ordC1, lookupPos]

/-- C2: the claim says the close formula's sign is inverted for SHORT, so a
LONG and a SHORT of equal quantity closed after an equal move have opposite
realized P&L of equal magnitude. The code applies the LONG formula to both:
closing each side's quantity-1 entry-100 position at 110 records +10 for
both, not +10 and -10. -/
theorem C2_close_pnl_not_inverted_for_short :
    posC2long.side = PositionSide.long ∧
    posC2short.side = PositionSide.short ∧
    (update_positions engC2long ordC2long 110).2.realized_pnl = 10 ∧
    (update_positions engC2short ordC2short 110).2.realized_pnl = 10 ∧
    (update_positions engC2short ordC2short 110).2.realized_pnl
      ≠ -(update_positions engC2long ordC2long 110).2.realized_pnl := by
  norm_num [update_positions, engC2long, engC2short, posC2long, posC2short,
    ordC2long, ordC2short, lookupPos]

/-- C3: the claim says a SELL order is never rejected for insufficient
balance. The affordability check in execute_order runs for every side, so a
MARKET SELL of quantity 1 quoted at 200 against balance 100 (execution
price 199.9, value 199.9 > 100) is rejected with "Insufficient balance". -/
theorem C3_sell_rejected_for_insufficient_balance :
    ordC3.side = OrderSide.sell ∧
    (execute_order engC3 ordC3 (some 200)).2.status = OrderStatus.rejected ∧
    (execute_order engC3 ordC3 (some 200)).2.notes = some "Insufficient balance" := by
  norm_num [execute_order, calculate_execution_price, engC3, ordC3]

/-- C6: first leg of the spec scenario — the MARKET BUY of 0.1 at quoted
50000 fills at 50025, leaving balance 4997.50 and a LONG position of 0.1 at
entry 50025, exactly as claimed. -/
theorem C6_scenario_buy_leg :
    (execute_order engC6 ordC6buy (some 50000)).2.status = OrderStatus.filled ∧
    (execute_order engC6 ordC6buy (some 50000)).2.average_fill_price = some 50025 ∧
    (execute_order engC6 ordC6buy (some 50000)).1.balance = 9995 / 2 ∧
    ((lookupPos (execute_order engC6 ordC6buy (some 50000)).1.positions
        "BTCUSDT").map Position.side) = some PositionSide.long ∧
    ((lookupPos (execute_order engC6 ordC6buy (some 50000)).1.positions
        "BTCUSDT").map Position.quantity) = some (1 / 10) ∧
    ((lookupPos (execute_order engC6 ordC6buy (some 50000)).1.positions
        "BTCUSDT").map Position.entry_price) = some 50025 := by
  norm_num [execute_order, calculate_execution_price, update_positions,
    lookupPos, setPos, engC6, ordC6buy]

/-- C6: second leg of the spec scenario fails on the code — the MARKET SELL
of 0.1 at quoted 51000 computes execution price 50974.50 and value 5097.45,
which exceeds the balance 4997.50, so the affordability check rejects the
order with "Insufficient balance"; the balance stays 4997.50 and the
position stays open, instead of the claimed fill, balance 10094.95 and zero
open positions. -/
theorem C6_scenario_sell_leg_rejected :
    (execute_order (execute_order engC6 ordC6buy (some 50000)).1 ordC6sell
        (some 51000)).2.status = OrderStatus.rejected ∧
    (execute_order (execute_order engC6 ordC6buy (some 50000)).1 ordC6sell
        (some 51000)).2.notes = some "Insufficient balance" ∧
    (execute_order (execute_order engC6 ordC6buy (some 50000)).1 ordC6sell
        (some 51000)).1 = (execute_order engC6 ordC6buy (some 50000)).1 := by
  norm_num [execute_order, calculate_execution_price, update_positions,
    lookupPos, setPos, engC6, ordC6buy, ordC6sell]

/-- C7, counterexample: fully closing `posC7` (LONG, quantity 1, entry 100)
at execution price 90 records realized P&L -10 on the closed position, yet
get_total_pnl of the resulting state is 0, because the closed position was
deleted from the map the sums range over — the locked-in realized P&L is
not reflected in totalPnL afterwards. -/
theorem C7_counterexample_full_close_drops_realized :
    (update_positions engC7 ordC7 90).2.realized_pnl = -10 ∧
    (update_positions engC7 ordC7 90).2.is_open = false ∧
    get_total_pnl (update_positions engC7 ordC7 90).1 = 0 := by
  norm_num [update_positions, get_total_pnl, sum_realized, sum_unrealized,
    lookupPos, delPos, engC7, posC7, ordC7]

/-- Membership form of a successful association-list lookup. -/
theorem lookupPos_mem {l : List (String × Position)} {s : String} {pos : Position}
    (h : lookupPos l s = some pos) : pos ∈ l.map Prod.snd := by
  induction l with
  | nil => simp [lookupPos] at h
  | cons kv rest ih =>
      obtain ⟨k, v⟩ := kv
      simp only [lookupPos] at h
      by_cases hk : k = s
      · rw [if_pos hk] at h
        simp [Option.some.inj h]
      · rw [if_neg hk] at h
        simp [ih h]

/-- A key that is not among the list's keys looks up to `none`. -/
theorem lookupPos_eq_none_of_not_mem {l : List (String × Position)} {s : String}
    (h : s ∉ l.map Prod.fst) : lookupPos l s = none := by
  induction l with
  | nil => rfl
  | cons kv rest ih =>
      obtain ⟨k, v⟩ := kv
      simp only [List.map_cons, List.mem_cons] at h
      push_neg at h
      simp only [lookupPos]
      rw [if_neg fun hk => h.1 hk.symm]
      exact ih h.2

/-- With no duplicate keys, deleting a key makes its lookup `none`. -/
theorem lookupPos_delPos_self {l : List (String × Position)} {s : String}
    (h : (l.map Prod.fst).Nodup) : lookupPos (delPos l s) s = none := by
  induction l with
  | nil => rfl
  | cons kv rest ih =>
      obtain ⟨k, v⟩ := kv
      simp only [List.map_cons, List.nodup_cons] at h
      simp only [delPos]
      by_cases hk : k = s
      · rw [if_pos hk]
        exact lookupPos_eq_none_of_not_mem (hk ▸ h.1)
      · rw [if_neg hk]
        simp only [lookupPos]
        rw [if_neg hk]
        exact ih h.2

/-- Deleting the key a lookup found removes exactly that binding's
contribution from a sum over the list. -/
theorem sum_map_delPos (f : Position → ℚ) {l : List (String × Position)}
    {s : String} {pos : Position} (h : lookupPos l s = some pos) :
    ((delPos l s).map (fun kv => f kv.2)).sum
      = (l.map (fun kv => f kv.2)).sum - f pos := by
  induction l with
  | nil => simp [lookupPos] at h
  | cons kv rest ih =>
      obtain ⟨k, v⟩ := kv
      simp only [lookupPos] at h
      simp only [delPos]
      by_cases hk : k = s
      · rw [if_pos hk] at h ⊢
        rw [Option.some.inj h]
        simp only [List.map_cons, List.sum_cons]
        ring
      · rw [if_neg hk] at h ⊢
        simp only [List.map_cons, List.sum_cons, ih h]
        ring

/-- C7, amended: get_total_pnl sums realized and unrealized P&L over the
open positions currently in the map only. A full close removes the closed
position from that map, so afterwards totalPnL has dropped the closed
position's realized and unrealized contributions — the realized P&L locked
in by the close is not reflected in totalPnL. -/
theorem C7_total_pnl_after_full_close
    (e : PaperTradingEngine) (order : Order) (px : ℚ) (pos : Position)
    (hside : order.side = OrderSide.sell)
    (hlook : lookupPos e.positions order.symbol = some pos)
    (hqty : pos.quantity ≤ order.quantity) :
    get_total_pnl (update_positions e order px).1
      = get_total_pnl e - pos.realized_pnl - pos.unrealized_pnl := by
  have hpositions : (update_positions e order px).1.positions
      = delPos e.positions order.symbol := by
    simp only [update_positions, hlook, hside]
    rw [if_pos hqty]
  rw [get_total_pnl, get_total_pnl, hpositions, sum_realized, sum_realized,
    sum_unrealized, sum_unrealized, sum_map_delPos _ hlook,
    sum_map_delPos _ hlook]
  ring

/-- C7, witness for the amended theorem at the concrete close of `posC7`. -/
theorem C7_total_pnl_after_full_close_witness :
    get_total_pnl (update_positions engC7 ordC7 90).1
      = get_total_pnl engC7 - posC7.realized_pnl - posC7.unrealized_pnl :=
  C7_total_pnl_after_full_close engC7 ordC7 90 posC7 rfl rfl (by norm_num [posC7, ordC7])

/-- C4: whenever execute_order ends with the order REJECTED — quote fetch
failure, a limit order without a price, or the affordability check — the
engine state (balance and position map alike) is returned exactly as it
was: ledger mutation happens only on the FILLED path. -/
theorem C4_rejected_order_preserves_state
    (e : PaperTradingEngine) (order : Order) (quote : Option ℚ)
    (h : (execute_order e order quote).2.status = OrderStatus.rejected) :
    (execute_order e order quote).1 = e := by
  cases quote with
  | none => rfl
  | some p =>
      cases hc : calculate_execution_price order.order_type order.side p
          order.price with
      | none => simp only [execute_order, hc]
      | some px =>
          by_cases hgt : px * order.quantity > e.balance
          · simp only [execute_order, hc, if_pos hgt]
          · simp only [execute_order, hc, if_neg hgt] at h
            simp at h

/-- C4, witness: a MARKET BUY of 1 quoted at 100 against balance 0 is
rejected and leaves the engine state untouched. -/
theorem C4_rejected_order_preserves_state_witness :
    (execute_order engC4 ordC4 (some 100)).1 = engC4 :=
  C4_rejected_order_preserves_state engC4 ordC4 (some 100)
    (by norm_num [execute_order, calculate_execution_price, engC4, ordC4])

/-- C5: the validator fails exactly when the notional
quantity × (price or 0) exceeds the cap, or the open-position count has
reached the cap and the order is a BUY; the notional rule is checked first
and its failure wins, and a SELL order always passes the position-cap
check. -/
theorem C5_validate_order_characterization (order : Order)
    (open_positions_count : ℕ) (max_position_size_usd : ℚ)
    (max_open_positions : ℕ) :
    ((validate_order order open_positions_count max_position_size_usd
          max_open_positions).isSome
      ↔ (order.quantity * order.price.getD 0 > max_position_size_usd
          ∨ (open_positions_count ≥ max_open_positions
              ∧ order.side = OrderSide.buy))) ∧
    (order.quantity * order.price.getD 0 > max_position_size_usd
      → validate_order order open_positions_count max_position_size_usd
          max_open_positions = some "Position size exceeds max") ∧
    (order.side = OrderSide.sell
      → ¬ order.quantity * order.price.getD 0 > max_position_size_usd
      → validate_order order open_positions_count max_position_size_usd
          max_open_positions = none) := by
  by_cases h1 : order.quantity * order.price.getD 0 > max_position_size_usd
  · simp [validate_order, h1]
  · by_cases h2 : open_positions_count ≥ max_open_positions
    · cases hs : order.side <;> simp [validate_order, h1, h2, hs]
    · cases hs : order.side <;> simp [validate_order, h1, h2, hs]

/-- C5, witness: a LIMIT BUY of 2 at price 1000 (notional 2000) against
cap 1000 is rejected by the notional rule. -/
theorem C5_validate_order_characterization_witness :
    validate_order ordC5 0 1000 3 = some "Position size exceeds max" :=
  (C5_validate_order_characterization ordC5 0 1000 3).2.1
    (by norm_num [ordC5])

/-- C8: a SELL against an existing position whose quantity it covers fully
closes it — realized P&L grows by (execution price − entry) × position
quantity, the balance is credited execution price × position quantity, the
position object ends with is_open false and closed_at set, the symbol is
removed from the open-position map, and the excess of the order's quantity
over the position's is ignored: selling exactly the position's quantity
gives the identical result. -/
theorem C8_sell_full_close (e : PaperTradingEngine) (order : Order) (px : ℚ)
    (pos : Position)
    (hside : order.side = OrderSide.sell)
    (hlook : lookupPos e.positions order.symbol = some pos)
    (hqty : pos.quantity ≤ order.quantity)
    (hnodup : (e.positions.map Prod.fst).Nodup) :
    (update_positions e order px).2.realized_pnl
        = pos.realized_pnl + (px - pos.entry_price) * pos.quantity ∧
    (update_positions e order px).1.balance = e.balance + px * pos.quantity ∧
    (update_positions e order px).2.is_open = false ∧
    (update_positions e order px).2.closed_at = true ∧
    lookupPos (update_positions e order px).1.positions order.symbol = none ∧
    (update_positions e order px).1.positions = delPos e.positions order.symbol ∧
    update_positions e { order with quantity := pos.quantity } px
        = update_positions e order px := by
  have hstep : update_positions e order px
      = ({ e with
            balance := e.balance + px * pos.quantity
            positions := delPos e.positions order.symbol },
          { pos with
            realized_pnl := pos.realized_pnl + (px - pos.entry_price) * pos.quantity
            is_open := false
            closed_at := true }) := by
    simp only [update_positions, hlook, hside]
    rw [if_pos (ge_iff_le.mpr hqty)]
  have hlook2 : lookupPos e.positions
      ({ order with quantity := pos.quantity } : Order).symbol = some pos := hlook
  have hside2 : ({ order with quantity := pos.quantity } : Order).side
      = OrderSide.sell := hside
  have hstep2 : update_positions e { order with quantity := pos.quantity } px
      = update_positions e order px := by
    rw [hstep]
    simp only [update_positions, hlook2, hside2, hside]
    rw [if_pos (ge_iff_le.mpr (le_refl pos.quantity))]
  refine ⟨by rw [hstep], by rw [hstep], by rw [hstep], by rw [hstep], ?_,
    by rw [hstep], hstep2⟩
  rw [hstep]
  exact lookupPos_delPos_self hnodup

/-- C8, witness: the oversized SELL of 2 against `posC8` (quantity 1) at
execution price 110. -/
theorem C8_sell_full_close_witness :
    (update_positions engC8 ordC8 110).2.realized_pnl
        = posC8.realized_pnl + (110 - posC8.entry_price) * posC8.quantity ∧
    (update_positions engC8 ordC8 110).1.balance
        = engC8.balance + 110 * posC8.quantity ∧
    (update_positions engC8 ordC8 110).2.is_open = false ∧
    (update_positions engC8 ordC8 110).2.closed_at = true ∧
    lookupPos (update_positions engC8 ordC8 110).1.positions ordC8.symbol
        = none ∧
    (update_positions engC8 ordC8 110).1.positions
        = delPos engC8.positions ordC8.symbol ∧
    update_positions engC8 { ordC8 with quantity := posC8.quantity } 110
        = update_positions engC8 ordC8 110 :=
  C8_sell_full_close engC8 ordC8 110 posC8 rfl rfl
    (by norm_num [posC8, ordC8]) (by simp [engC8])

/-- C9: cancel_order answers not_found exactly for an unknown id, answers
invalid_state for an existing order whose status is not PENDING, sets a
PENDING order's status directly to CANCELLED, and produces a CANCELLED
order only from a PENDING one. -/
theorem C9_cancel_order_characterization (lookup : Option Order) :
    (cancel_order lookup = CancelResult.not_found ↔ lookup = none) ∧
    (∀ o, lookup = some o → o.status ≠ OrderStatus.pending →
        cancel_order lookup = CancelResult.invalid_state o.status) ∧
    (∀ o, lookup = some o → o.status = OrderStatus.pending →
        cancel_order lookup
          = CancelResult.cancelled { o with status := OrderStatus.cancelled }) ∧
    (∀ o', cancel_order lookup = CancelResult.cancelled o' →
        ∃ o, lookup = some o ∧ o.status = OrderStatus.pending
          ∧ o' = { o with status := OrderStatus.cancelled }) := by
  cases lookup with
  | none => simp [cancel_order]
  | some o =>
      by_cases hp : o.status = OrderStatus.pending
      · refine ⟨by simp [cancel_order, hp], ?_, ?_, ?_⟩
        · intro o₂ ho hne
          cases Option.some.inj ho
          exact absurd hp hne
        · intro o₂ ho _
          cases Option.some.inj ho
          simp [cancel_order, hp]
        · intro o' h
          simp only [cancel_order, if_neg (not_not_intro hp)] at h
          exact ⟨o, rfl, hp, (CancelResult.cancelled.inj h).symm⟩
      · refine ⟨by simp [cancel_order, hp], ?_, ?_, ?_⟩
        · intro o₂ ho _
          cases Option.some.inj ho
          simp [cancel_order, hp]
        · intro o₂ ho hpend
          cases Option.some.inj ho
          exact absurd hpend hp
        · intro o' h
          simp only [cancel_order, if_pos hp] at h
          simp at h

/-- C9, witness: cancelling the pending order `ordC9`. -/
theorem C9_cancel_order_characterization_witness :
    cancel_order (some ordC9)
      = CancelResult.cancelled { ordC9 with status := OrderStatus.cancelled } :=
  (C9_cancel_order_characterization (some ordC9)).2.2.1 ordC9 rfl rfl

/-- On a SELL, every execution price the simulator derives from a
nonnegative market price is itself nonnegative. -/
theorem sell_execution_price_nonneg {t : OrderType} {p : ℚ} {lp : Option ℚ}
    {px : ℚ} (hp : 0 ≤ p)
    (h : calculate_execution_price t OrderSide.sell p lp = some px) :
    0 ≤ px := by
  cases t with
  | market =>
      simp only [calculate_execution_price] at h
      obtain rfl : p * (1 - 5 / 10000) = px := Option.some.inj h
      exact mul_nonneg hp (by norm_num)
  | limit =>
      cases lp with
      | none => simp [calculate_execution_price] at h
      | some l =>
          simp only [calculate_execution_price] at h
          obtain rfl : max l p = px := Option.some.inj h
          exact le_trans hp (le_max_right l p)
  | stop_market =>
      simp only [calculate_execution_price] at h
      obtain rfl : p = px := Option.some.inj h
      exact hp
  | stop_limit =>
      simp only [calculate_execution_price] at h
      obtain rfl : p = px := Option.some.inj h
      exact hp

/-- Every branch of update_positions keeps the balance nonnegative when the
order's value fits in the balance (the BUY debit) and credits are
nonnegative (the SELL branches). -/
theorem update_positions_balance_nonneg
    (e : PaperTradingEngine) (order : Order) (px : ℚ)
    (hb : 0 ≤ e.balance)
    (hle : px * order.quantity ≤ e.balance)
    (hqty : 0 ≤ order.quantity)
    (hpx : order.side = OrderSide.sell → 0 ≤ px)
    (hpos : ∀ pos ∈ e.positions.map Prod.snd, 0 ≤ pos.quantity) :
    0 ≤ (update_positions e order px).1.balance := by
  cases hl : lookupPos e.positions order.symbol with
  | none =>
      cases hs : order.side with
      | buy =>
          simp only [update_positions, hl, hs]
          linarith
      | sell =>
          simp only [update_positions, hl, hs]
          have := mul_nonneg (hpx hs) hqty
          linarith
  | some existing =>
      have hexq : 0 ≤ existing.quantity := hpos existing (lookupPos_mem hl)
      cases hs : order.side with
      | buy =>
          simp only [update_positions, hl, hs]
          linarith
      | sell =>
          by_cases hge : order.quantity ≥ existing.quantity
          · simp only [update_positions, hl, hs]
            rw [if_pos hge]
            have := mul_nonneg (hpx hs) hexq
            simp only
            linarith
          · simp only [update_positions, hl, hs]
            rw [if_neg hge]
            have := mul_nonneg (hpx hs) hqty
            simp only
            linarith

/-- C10: execute_order never drives the balance negative — a rejection
leaves it unchanged, a filled BUY debits exactly the value the
affordability check bounded by the balance, and every SELL branch only
credits, so a nonnegative balance stays nonnegative (given a nonnegative
quote, order quantity and held quantities). -/
theorem C10_execute_order_balance_nonneg
    (e : PaperTradingEngine) (order : Order) (quote : Option ℚ)
    (hb : 0 ≤ e.balance)
    (hq : 0 ≤ quote.getD 0)
    (hqty : 0 ≤ order.quantity)
    (hpos : ∀ pos ∈ e.positions.map Prod.snd, 0 ≤ pos.quantity) :
    0 ≤ (execute_order e order quote).1.balance := by
  cases quote with
  | none => exact hb
  | some p =>
      have hp : 0 ≤ p := by simpa using hq
      cases hc : calculate_execution_price order.order_type order.side p
          order.price with
      | none =>
          simp only [execute_order, hc]
          exact hb
      | some px =>
          by_cases hgt : px * order.quantity > e.balance
          · simp only [execute_order, hc, if_pos hgt]
            exact hb
          · simp only [execute_order, hc, if_neg hgt]
            have hle : px * order.quantity ≤ e.balance := not_lt.mp hgt
            exact update_positions_balance_nonneg e _ px hb hle hqty
              (fun hs => sell_execution_price_nonneg hp (hs ▸ hc)) hpos

/-- C10, witness: a MARKET SELL of 1 quoted at 4 against balance 10 with no
positions held. -/
theorem C10_execute_order_balance_nonneg_witness :
    0 ≤ (execute_order engC10 ordC10 (some 4)).1.balance :=
  C10_execute_order_balance_nonneg engC10 ordC10 (some 4)
    (by norm_num [engC10]) (by norm_num [Option.getD_some])
    (by norm_num [ordC10]) (by simp [engC10])

end FutureBot
